import Mathlib

/-!
Verification of the abnormal-file-hub frontend against its specification.

The development shallowly embeds the TypeScript source of the repository:
pure helpers become Lean functions, React component handlers become explicit
state-passing functions, network calls and DOM interactions are modelled by
explicit outcome parameters, and thrown JavaScript errors become `Except`
values.  JavaScript numbers are modelled as exact rationals represented by
numerator/denominator pairs (`JsNum`; all values reached by the claims are
exact in IEEE doubles), and `Date` objects are modelled in a fixed UTC
browser timezone.
-/

/-! ## Error values (src/frontend/src/services/fileService.ts) -/

/-- The `{ error?, detail? }` response body shape (`ErrorResponse` in
src/frontend/src/types/file.ts); both fields modelled as optional strings. -/
structure ErrorData where
  detail : Option String
  error : Option String
deriving DecidableEq, Repr

/-- A JavaScript error value as discriminated by `getErrorMessage`:
an axios error (with optional response body and a message string),
a plain `Error` (with a message), or any other thrown value. -/
inductive JsError where
  | axios (data : Option ErrorData) (message : String)
  | jsError (message : String)
  | other
deriving DecidableEq, Repr

/-- JavaScript string truthiness for an optional string field:
truthy iff present and nonempty. -/
def truthy : Option String → Bool
  | some s => decide (s ≠ "")
  | none => false

/-- `getErrorMessage` from src/frontend/src/services/fileService.ts lines
20-35: for an axios error return `data?.detail`, else `data?.error`, else
`axiosError.message`; for a plain `Error` return its message; otherwise the
fallback string.  An axios error with a falsy message falls through to the
`instanceof Error` branch, which returns the same (empty) message, so the
axios case nets to `msg` after the body checks. -/
def getErrorMessage (e : JsError) : String :=
  match e with
  | .axios data msg =>
    let detail := data.bind ErrorData.detail
    let errField := data.bind ErrorData.error
    if truthy detail then detail.getD ""
    else if truthy errField then errField.getD ""
    else msg
  | .jsError msg => msg
  | .other => "An unexpected error occurred"

/-! ## Service operations (src/frontend/src/services/fileService.ts) -/

/-- Outcome of an awaited axios request: resolves, or rejects with a
JavaScript error value. -/
inductive NetResult where
  | ok
  | err (e : JsError)
deriving DecidableEq, Repr

/-- What a service operation throws to its caller: the original caught
error object, or a newly constructed `Error` wrapping a message string. -/
inductive Thrown where
  | raw (e : JsError)
  | wrapped (msg : String)
deriving DecidableEq, Repr

/-- `fileService.uploadFile` catch clause (fileService.ts lines 56-75):
`throw new Error(getErrorMessage(error))`. -/
def fileService_uploadFile (r : NetResult) : Except Thrown Unit :=
  match r with
  | .ok => .ok ()
  | .err e => .error (.wrapped (getErrorMessage e))

/-- `fileService.searchFiles` catch clause (fileService.ts lines 80-96):
`throw new Error(getErrorMessage(error))`. -/
def fileService_searchFiles (r : NetResult) : Except Thrown Unit :=
  match r with
  | .ok => .ok ()
  | .err e => .error (.wrapped (getErrorMessage e))

/-- `fileService.deleteFile` catch clause (fileService.ts lines 101-109):
computes the message only for logging, then `throw error` — the original
caught error object is rethrown unchanged. -/
def fileService_deleteFile (r : NetResult) : Except Thrown Unit :=
  match r with
  | .ok => .ok ()
  | .err e => .error (.raw e)

/-- `fileService.getStorageStats` catch clause (fileService.ts lines
142-154): `throw new Error(getErrorMessage(error))`. -/
def fileService_getStorageStats (r : NetResult) : Except Thrown Unit :=
  match r with
  | .ok => .ok ()
  | .err e => .error (.wrapped (getErrorMessage e))

/-! ## Download (fileService.ts lines 114-137)

`downloadFile` runs, inside a single try block: fetch the blob, create an
object URL, append a link, `link.click()`, remove the link, revoke the URL.
The catch clause logs and throws `new Error('Failed to download file')`.
The model takes the fetch outcome and whether the synthesized click throws,
and records which effects ran. -/

/-- Inputs of one `downloadFile` run: the blob GET outcome and whether
`link.click()` throws. -/
structure DownloadEnv where
  fetch : NetResult
  clickThrows : Bool
deriving DecidableEq, Repr

deriving instance DecidableEq for Except

/-- Observable effects and result of one `downloadFile` run. -/
structure DownloadTrace where
  urlCreated : Bool
  clicked : Bool
  linkRemoved : Bool
  urlRevoked : Bool
  result : Except Thrown Unit
deriving DecidableEq, Repr

/-- `fileService.downloadFile`: straight-line translation of the try block;
statements after a throwing statement do not run, and any throw lands in the
catch clause, which rethrows `new Error('Failed to download file')`. -/
def fileService_downloadFile (env : DownloadEnv) : DownloadTrace :=
  match env.fetch with
  | .err _ =>
    { urlCreated := false, clicked := false, linkRemoved := false,
      urlRevoked := false, result := .error (.wrapped "Failed to download file") }
  | .ok =>
    if env.clickThrows then
      { urlCreated := true, clicked := false, linkRemoved := false,
        urlRevoked := false, result := .error (.wrapped "Failed to download file") }
    else
      { urlCreated := true, clicked := true, linkRemoved := true,
        urlRevoked := true, result := .ok () }

/-- The five operations exported by `fileService`. -/
inductive ServiceOp where
  | upload
  | search
  | delete
  | download
  | stats
deriving DecidableEq, Repr

/-- What each service operation throws when its awaited request rejects
with error `e` (for `download`, the rejection of the blob GET). -/
def opFailureThrown (op : ServiceOp) (e : JsError) : Option Thrown :=
  match op with
  | .upload =>
    match fileService_uploadFile (.err e) with
    | .error t => some t
    | .ok _ => none
  | .search =>
    match fileService_searchFiles (.err e) with
    | .error t => some t
    | .ok _ => none
  | .delete =>
    match fileService_deleteFile (.err e) with
    | .error t => some t
    | .ok _ => none
  | .download =>
    match (fileService_downloadFile { fetch := .err e, clickThrows := false }).result with
    | .error t => some t
    | .ok _ => none
  | .stats =>
    match fileService_getStorageStats (.err e) with
    | .error t => some t
    | .ok _ => none

/-! ## Exact JavaScript numbers

All numbers the claims touch are exact in IEEE doubles, so JavaScript
numbers are modelled as exact rationals.  To keep every definition
kernel-computable, rationals are represented as raw numerator/denominator
pairs (denominators stay positive by construction; no gcd normalization). -/

/-- An exact JavaScript number: `num / den` with `den` positive by
construction in every operation below. -/
structure JsNum where
  num : ℤ
  den : ℕ
deriving DecidableEq, Repr

/-- Embed a natural number. -/
def JsNum.ofNat (n : ℕ) : JsNum := ⟨n, 1⟩

/-- Exact addition. -/
def JsNum.add (a b : JsNum) : JsNum :=
  ⟨a.num * b.den + b.num * a.den, a.den * b.den⟩

/-- Exact multiplication. -/
def JsNum.mul (a b : JsNum) : JsNum := ⟨a.num * b.num, a.den * b.den⟩

/-- Negation. -/
def JsNum.neg (a : JsNum) : JsNum := ⟨-a.num, a.den⟩

/-- Exact division; the divisor is nonzero on every path the embedded code
reaches (division by zero is given a dummy value). -/
def JsNum.div (a b : JsNum) : JsNum :=
  match b.num with
  | .ofNat 0 => ⟨0, 1⟩
  | .ofNat (k + 1) => ⟨a.num * b.den, a.den * (k + 1)⟩
  | .negSucc k => ⟨-(a.num * b.den), a.den * (k + 1)⟩

/-- Exact power by a natural exponent. -/
def JsNum.pow (a : JsNum) : ℕ → JsNum
  | 0 => ⟨1, 1⟩
  | n + 1 => (a.pow n).mul a

/-- Value-level strict comparison (`a < b`), by cross multiplication. -/
def JsNum.blt (a b : JsNum) : Bool :=
  decide (a.num * (b.den : ℤ) < b.num * (a.den : ℤ))

/-- Floor of the represented value. -/
def JsNum.floor (a : JsNum) : ℤ := Int.fdiv a.num a.den

/-- The represented rational value. -/
def JsNum.val (a : JsNum) : ℚ := (a.num : ℚ) / (a.den : ℚ)

/-! ## Byte-size formatting

Two copies exist in the repository.  The utils copy (appended in
src/frontend/src/components/StorageStats.tsx, lines 115-123) renders
`value.toFixed(2)`; the copy local to src/frontend/src/components/FileList.tsx
(lines 67-74) additionally wraps the fixed string in `parseFloat(...)`,
which strips trailing fractional zeros when the number is stringified again.
`Math.floor(Math.log(bytes) / Math.log(1024))` is modelled by the exact
base-1024 logarithm (the two agree on all inputs the claims touch). -/

/-- Fuel-driven helper for the base-1024 logarithm. -/
def log1024Aux : ℕ → ℕ → ℕ
  | 0, _ => 0
  | fuel + 1, n => if n < 1024 then 0 else log1024Aux fuel (n / 1024) + 1

/-- `Math.floor(Math.log(n) / Math.log(1024))` for `n ≥ 1`, modelled as the
exact base-1024 logarithm. -/
def log1024 (n : ℕ) : ℕ := log1024Aux n n

/-- JavaScript `value.toFixed(2)` for a nonnegative number: round to the
nearest hundredth (half up) and render with exactly two fraction digits. -/
def toFixed2 (q : JsNum) : String :=
  let n := ((q.mul (JsNum.ofNat 100)).add ⟨1, 2⟩).floor.toNat
  let ip := n / 100
  let fr := n % 100
  toString ip ++ "." ++ (if fr < 10 then "0" ++ toString fr else toString fr)

/-- The unit-suffix table of the utils `formatBytes`. -/
def sizesUtils : List String := ["Bytes", "KB", "MB", "GB", "TB", "PB"]

/-- The unit-suffix table of the `FileList` `formatBytes`. -/
def sizesFileList : List String := ["Bytes", "KB", "MB", "GB", "TB"]

/-- `formatBytes` (utils copy, StorageStats.tsx lines 115-123):
`0 → "0 Bytes"`, otherwise `value.toFixed(2)` with the chosen unit
(an out-of-range index renders as JavaScript `undefined`). -/
def formatBytes (bytes : ℕ) : String :=
  if bytes = 0 then "0 Bytes"
  else
    let i := log1024 bytes
    let value := (JsNum.ofNat bytes).div ((JsNum.ofNat 1024).pow i)
    toFixed2 value ++ " " ++ sizesUtils.getD i "undefined"

/-- Model of `String(parseFloat(s))` for a string produced by `toFixed(2)`:
drop trailing fractional zeros, and the dot when the fraction vanishes. -/
def dropTrailingZeros (s : String) : String :=
  if s.data.contains '.' then
    let cs := s.data.reverse.dropWhile (fun c => c = '0')
    let cs := cs.dropWhile (fun c => c = '.')
    String.mk cs.reverse
  else s

/-- `formatBytes` (FileList.tsx lines 67-74):
`parseFloat((bytes / Math.pow(1024, i)).toFixed(2)) + ' ' + sizes[i]` —
the `parseFloat` round-trip strips trailing fractional zeros. -/
def FileList_formatBytes (bytes : ℕ) : String :=
  if bytes = 0 then "0 Bytes"
  else
    let i := log1024 bytes
    let value := (JsNum.ofNat bytes).div ((JsNum.ofNat 1024).pow i)
    dropTrailingZeros (toFixed2 value) ++ " " ++ sizesFileList.getD i "undefined"

/-! ## JavaScript number parsing (`parseFloat`)

`parseFloat` parses the longest numeric prefix (optional sign, digits,
optional fraction); `none` models `NaN`.  Exponents never occur in the
filter panel's numeric inputs. -/

/-- Decimal value of a digit list. -/
def digitsVal (cs : List Char) : ℕ :=
  cs.foldl (fun a c => a * 10 + (c.toNat - 48)) 0

/-- Unsigned part of `parseFloat`: integer digits, an optional dot, and
fraction digits; `none` when no digit exists at all (`NaN`). -/
def parseFloatAux (cs : List Char) : Option JsNum :=
  let intDigits := cs.takeWhile Char.isDigit
  let rest := cs.dropWhile Char.isDigit
  let fracDigits :=
    match rest with
    | '.' :: rs => rs.takeWhile Char.isDigit
    | _ => []
  if intDigits.isEmpty && fracDigits.isEmpty then none
  else
    some ((JsNum.ofNat (digitsVal intDigits)).add
      ((JsNum.ofNat (digitsVal fracDigits)).div (JsNum.ofNat (10 ^ fracDigits.length))))

/-- JavaScript `parseFloat`: skip leading spaces, read an optional sign,
then the unsigned numeric prefix; `none` models `NaN`. -/
def parseFloat (s : String) : Option JsNum :=
  match s.data.dropWhile (fun c => c = ' ') with
  | '-' :: cs => (parseFloatAux cs).map JsNum.neg
  | '+' :: cs => parseFloatAux cs
  | cs => parseFloatAux cs

/-! ## Dates

`<input type="date">` yields `""` or a `YYYY-MM-DD` string; `new Date(s)`
parses it at midnight (modelled in a fixed UTC browser timezone), and an
unparseable string gives an Invalid Date (`none`). -/

/-- A JavaScript `Date` broken into calendar fields (UTC model). -/
structure JsDate where
  year : ℕ
  month : ℕ
  day : ℕ
  hour : ℕ := 0
  minute : ℕ := 0
  second : ℕ := 0
  ms : ℕ := 0
deriving DecidableEq, Repr

/-- Two-digit zero-padded rendering. -/
def pad2 (n : ℕ) : String := if n < 10 then "0" ++ toString n else toString n

/-- Three-digit zero-padded rendering. -/
def pad3 (n : ℕ) : String :=
  if n < 10 then "00" ++ toString n
  else if n < 100 then "0" ++ toString n
  else toString n

/-- Four-digit zero-padded rendering. -/
def pad4 (n : ℕ) : String :=
  if n < 10 then "000" ++ toString n
  else if n < 100 then "00" ++ toString n
  else if n < 1000 then "0" ++ toString n
  else toString n

/-- The `YYYY-MM-DD` part of `toISOString`. -/
def JsDate.datePart (d : JsDate) : String :=
  pad4 d.year ++ "-" ++ pad2 d.month ++ "-" ++ pad2 d.day

/-- The `HH:mm:ss.mmm` part of `toISOString`. -/
def JsDate.timePart (d : JsDate) : String :=
  pad2 d.hour ++ ":" ++ pad2 d.minute ++ ":" ++ pad2 d.second ++ "." ++ pad3 d.ms

/-- JavaScript `Date.prototype.toISOString` (UTC model). -/
def JsDate.toISOString (d : JsDate) : String :=
  d.datePart ++ "T" ++ d.timePart ++ "Z"

/-- JavaScript `setHours(h, m, s, ms)` (UTC model). -/
def JsDate.setHours (d : JsDate) (h m s ms : ℕ) : JsDate :=
  { d with hour := h, minute := m, second := s, ms := ms }

/-- Timestamp comparison `a < b`; for UTC dates this is lexicographic on
the calendar fields. -/
def JsDate.ltb (a b : JsDate) : Bool :=
  if a.year ≠ b.year then decide (a.year < b.year)
  else if a.month ≠ b.month then decide (a.month < b.month)
  else if a.day ≠ b.day then decide (a.day < b.day)
  else if a.hour ≠ b.hour then decide (a.hour < b.hour)
  else if a.minute ≠ b.minute then decide (a.minute < b.minute)
  else if a.second ≠ b.second then decide (a.second < b.second)
  else decide (a.ms < b.ms)

/-- `new Date(s)` for a date-input string: `YYYY-MM-DD` (all digits, month
1-12, day 1-31) parses at midnight; anything else is an Invalid Date. -/
def parseDate (s : String) : Option JsDate :=
  match s.data with
  | [y1, y2, y3, y4, '-', m1, m2, '-', d1, d2] =>
    if ([y1, y2, y3, y4, m1, m2, d1, d2].all Char.isDigit) then
      if 1 ≤ digitsVal [m1, m2] ∧ digitsVal [m1, m2] ≤ 12
          ∧ 1 ≤ digitsVal [d1, d2] ∧ digitsVal [d1, d2] ≤ 31 then
        some { year := digitsVal [y1, y2, y3, y4], month := digitsVal [m1, m2],
               day := digitsVal [d1, d2] }
      else none
    else none
  | _ => none

/-! ## The search/filter panel (src/unnamed/part_000)

`emitFilterChange` validates the size and date fields, sets or clears the
two inline error messages, and on success builds the normalized filter
object handed to the parent.  The component state is the six field states
plus the two error strings; emitting is modelled as returning
`some filters`. -/

/-- The normalized filter object handed to the parent (`FilterCriteria`). -/
structure FilterCriteria where
  search : Option String := none
  fileTypes : Option (List String) := none
  minSize : Option JsNum := none
  maxSize : Option JsNum := none
  startDate : Option String := none
  endDate : Option String := none
deriving DecidableEq, Repr

/-- The filter panel's local state: six field states and two error strings. -/
structure SFState where
  search : String := ""
  selectedFileTypes : List String := []
  minSize : String := ""
  maxSize : String := ""
  startDate : String := ""
  endDate : String := ""
  sizeError : String := ""
  dateError : String := ""
deriving DecidableEq, Repr

/-- Size validation of `emitFilterChange` (part_000 lines 37-68): the
paired checks run first (NaN, negative, min>max), then each field alone;
the first failing check's message is the result. -/
def sizeErrorOf (s : SFState) : Option String :=
  let pairErr : Option String :=
    if s.minSize ≠ "" ∧ s.maxSize ≠ "" then
      match parseFloat s.minSize, parseFloat s.maxSize with
      | some mn, some mx =>
        if JsNum.blt mn (JsNum.ofNat 0) ∨ JsNum.blt mx (JsNum.ofNat 0) then
          some "Size values cannot be negative"
        else if JsNum.blt mx mn then
          some "Minimum size cannot be greater than maximum size"
        else none
      | _, _ => some "Size values must be valid numbers"
    else none
  let minErr : Option String :=
    if s.minSize ≠ "" then
      match parseFloat s.minSize with
      | some mn =>
        if JsNum.blt mn (JsNum.ofNat 0) then
          some "Minimum size must be a non-negative number"
        else none
      | none => some "Minimum size must be a non-negative number"
    else none
  let maxErr : Option String :=
    if s.maxSize ≠ "" then
      match parseFloat s.maxSize with
      | some mx =>
        if JsNum.blt mx (JsNum.ofNat 0) then
          some "Maximum size must be a non-negative number"
        else none
      | none => some "Maximum size must be a non-negative number"
    else none
  pairErr <|> minErr <|> maxErr

/-- Date validation of `emitFilterChange` (part_000 lines 72-101): the
paired checks run first (invalid parse, start after end), then each field
alone; the first failing check's message is the result. -/
def dateErrorOf (s : SFState) : Option String :=
  let pairErr : Option String :=
    if s.startDate ≠ "" ∧ s.endDate ≠ "" then
      match parseDate s.startDate, parseDate s.endDate with
      | some st, some en =>
        if JsDate.ltb en st then some "Start date cannot be after end date"
        else none
      | _, _ => some "Invalid date format"
    else none
  let startErr : Option String :=
    if s.startDate ≠ "" then
      match parseDate s.startDate with
      | some _ => none
      | none => some "Invalid start date format"
    else none
  let endErr : Option String :=
    if s.endDate ≠ "" then
      match parseDate s.endDate with
      | some _ => none
      | none => some "Invalid end date format"
    else none
  pairErr <|> startErr <|> endErr

/-- Whitespace characters removed by JavaScript `String.prototype.trim`
(the kinds a search input can contain). -/
def isJsSpace (c : Char) : Bool :=
  decide (c = ' ' ∨ c = '\t' ∨ c = '\n' ∨ c = '\r')

/-- JavaScript `String.prototype.trim`: strip whitespace at both ends. -/
def jsTrim (s : String) : String :=
  String.mk (((s.data.dropWhile isJsSpace).reverse.dropWhile isJsSpace).reverse)

/-- The search, file-type and size fields of the emitted filter object
(part_000 lines 105-127): each field of an initially empty object is
assigned when its source field is nonempty (and, for sizes, parses to a
nonnegative byte count after the KB→bytes conversion). -/
def buildBaseFilters (s : SFState) : FilterCriteria :=
  { search := if jsTrim s.search ≠ "" then some (jsTrim s.search) else none,
    fileTypes :=
      if s.selectedFileTypes.length > 0 then some s.selectedFileTypes else none,
    minSize :=
      if s.minSize ≠ "" then
        match parseFloat s.minSize with
        | some mn =>
          let minBytes := mn.mul (JsNum.ofNat 1024)
          if JsNum.blt minBytes (JsNum.ofNat 0) then none else some minBytes
        | none => none
      else none,
    maxSize :=
      if s.maxSize ≠ "" then
        match parseFloat s.maxSize with
        | some mx =>
          let maxBytes := mx.mul (JsNum.ofNat 1024)
          if JsNum.blt maxBytes (JsNum.ofNat 0) then none else some maxBytes
        | none => none
      else none,
    startDate := none,
    endDate := none }

/-- The end-date step of `emitFilterChange` (part_000 lines 138-147):
extend the parsed day to 23:59:59.999 and serialize; a parse failure would
set the date error and abort the emission. -/
def emitEndDate (s : SFState) (f : FilterCriteria) :
    SFState × Option FilterCriteria :=
  if s.endDate = "" then (s, some f)
  else
    match parseDate s.endDate with
    | none => ({ s with dateError := "Invalid end date" }, none)
    | some d =>
      (s, some { f with endDate := some ((d.setHours 23 59 59 999).toISOString) })

/-- The start-date step of `emitFilterChange` (part_000 lines 129-136):
serialize the parsed day as-is, then handle the end date. -/
def emitStartDate (s : SFState) (f : FilterCriteria) :
    SFState × Option FilterCriteria :=
  if s.startDate = "" then emitEndDate s f
  else
    match parseDate s.startDate with
    | none => ({ s with dateError := "Invalid start date" }, none)
    | some d => emitEndDate s { f with startDate := some d.toISOString }

/-- `emitFilterChange` (part_000 lines 36-150): size validation, then date
validation (each early-returning with its message and no emission), then
the normalized filter object is built and handed to the parent. -/
def emitFilterChange (s : SFState) : SFState × Option FilterCriteria :=
  match sizeErrorOf s with
  | some e => ({ s with sizeError := e }, none)
  | none =>
    match dateErrorOf { s with sizeError := "" } with
    | some e => ({ s with sizeError := "", dateError := e }, none)
    | none =>
      emitStartDate { s with sizeError := "", dateError := "" }
        (buildBaseFilters { s with sizeError := "", dateError := "" })

/-! ## The upload widget (src/frontend/src/components/FileUpload.tsx)

`handleUpload` guards on the selection, clears the local error, and awaits
the upload mutation; `onSuccess` invalidates the two query caches, clears
the file input and the selection, and calls the parent callback;
`onError` sets the local error message (the surrounding catch swallows the
rejection).  The mutation outcome is an explicit parameter. -/

/-- Local state of the upload widget: the selected file (by name), the
local error message, and the file input element's `value`. -/
structure FUState where
  selectedFile : Option String := none
  error : Option String := none
  fileInputValue : String := "x.txt"
deriving DecidableEq, Repr

/-- Outcome of the awaited upload mutation. -/
inductive UploadOutcome where
  | success
  | failure
deriving DecidableEq, Repr

/-- Result of one `handleUpload` run: the new widget state, whether the
upload request was issued, which query keys were invalidated, and whether
the parent `onUploadSuccess` callback ran. -/
structure FUResult where
  state : FUState
  uploadCalled : Bool
  invalidations : List String
  onUploadSuccessCalled : Bool
deriving DecidableEq, Repr

/-- `handleUpload` (FileUpload.tsx lines 39-50) together with the
mutation's `onSuccess`/`onError` handlers (lines 15-30). -/
def handleUpload (s : FUState) (outcome : UploadOutcome) : FUResult :=
  match s.selectedFile with
  | none =>
    { state := { s with error := some "Please select a file" },
      uploadCalled := false, invalidations := [], onUploadSuccessCalled := false }
  | some _ =>
    let s1 := { s with error := none }
    match outcome with
    | .success =>
      { state := { s1 with fileInputValue := "", selectedFile := none },
        uploadCalled := true, invalidations := ["files", "fileStats"],
        onUploadSuccessCalled := true }
    | .failure =>
      { state := { s1 with error := some "Failed to upload file. Please try again." },
        uploadCalled := true, invalidations := [], onUploadSuccessCalled := false }

/-! ## The upload success chain (FileUpload → FileUploadSection → App)

`FileUpload.onSuccess` invalidates `['files']` and `['fileStats']`, clears
the input and the selection, and calls `onUploadSuccess`, which is
`FileUploadSection.handleUploadSuccess` (FileUploadSection.tsx lines 13-16):
it calls `App.handleUploadSuccess` (App.tsx lines 9-11, bumping
`refreshKey`, the `key` of `<FileList/>`), then bumps `resetKey` (the `key`
of `<FileUpload/>`).  A key change remounts the keyed component; remounting
`FileList` runs its `useQuery(['files', filters])` again, i.e. a mount-time
fetch of the listing. -/

/-- Combined state along the success chain. -/
structure AppState where
  refreshKey : ℕ := 0
  resetKey : ℕ := 0
  selectedFile : Option String := none
  fileInputValue : String := "x.txt"
deriving DecidableEq, Repr

/-- Refresh-triggering effects along the success chain. -/
inductive Effect where
  | invalidate (key : String)
  | mountFetchFiles
deriving DecidableEq, Repr

/-- The full effect of a successful upload: the mutation's `onSuccess`
body, then the parent callbacks, in program order. -/
def uploadOnSuccess (s : AppState) : AppState × List Effect :=
  let effs := [Effect.invalidate "files", Effect.invalidate "fileStats"]
  let s := { s with fileInputValue := "", selectedFile := none }
  let s := { s with refreshKey := s.refreshKey + 1 }
  let effs := effs ++ [Effect.mountFetchFiles]
  let s := { s with resetKey := s.resetKey + 1 }
  (s, effs)

/-- How many times the file listing is (re)fetched: a `['files']` cache
invalidation refetches the active listing query, and a `FileList` remount
fetches on mount. -/
def listingRefreshTriggers (effs : List Effect) : ℕ :=
  effs.countP (fun e => e = Effect.invalidate "files" ∨ e = Effect.mountFetchFiles)

/-- How many times the storage statistics are (re)fetched: a
`['fileStats']` cache invalidation refetches the active stats query. -/
def statsRefreshTriggers (effs : List Effect) : ℕ :=
  effs.countP (fun e => e = Effect.invalidate "fileStats")

/-! ## The debounce timer (part_000 lines 152-165)

The `useEffect` whose dependency is `emitFilterChange` (and hence all six
field states) schedules a 300 ms emission and returns a cleanup that clears
it.  React runs the previous cleanup before re-running the effect and on
unmount.  The model is a step relation over events: a field change (the
effect re-runs: clear the pending timer, schedule a fresh one), a timer
firing (emits only if still scheduled), and unmount (cleanup only).  The
first-render run of the effect schedules nothing and is the initial
state. -/

/-- Debounce bookkeeping: whether the component is mounted, the pending
timer id (if any), and a fresh-id counter. -/
structure DebState where
  mounted : Bool := true
  pending : Option ℕ := none
  nextId : ℕ := 0
deriving DecidableEq, Repr

/-- Events touching the debounce timer. -/
inductive DebEvent where
  | change
  | fire (id : ℕ)
  | unmount
deriving DecidableEq, Repr

/-- Observable timer actions. -/
inductive DebAction where
  | cancel (id : ℕ)
  | schedule (id : ℕ)
  | emit
deriving DecidableEq, Repr

/-- One step: a change clears the pending timer and schedules a fresh one
(only while mounted — React cannot deliver events to an unmounted
component); a cleared timer never fires; unmount runs the cleanup. -/
def debStep (s : DebState) : DebEvent → DebState × List DebAction
  | .change =>
    if s.mounted then
      let cancels :=
        match s.pending with
        | some id => [DebAction.cancel id]
        | none => []
      ({ s with pending := some s.nextId, nextId := s.nextId + 1 },
        cancels ++ [DebAction.schedule s.nextId])
    else (s, [])
  | .fire id =>
    if s.pending = some id then ({ s with pending := none }, [DebAction.emit])
    else (s, [])
  | .unmount =>
    let cancels :=
      match s.pending with
      | some id => [DebAction.cancel id]
      | none => []
    ({ s with mounted := false, pending := none }, cancels)

/-- The state after a list of events. -/
def debExec (s : DebState) : List DebEvent → DebState
  | [] => s
  | e :: es => debExec (debStep s e).1 es

/-- The actions produced along a list of events. -/
def debRun (s : DebState) : List DebEvent → List DebAction
  | [] => []
  | e :: es => (debStep s e).2 ++ debRun (debStep s e).1 es

/-! ## Theorems -/

/-- C1: `downloadFile` is claimed to revoke the created object URL on every
execution path, including when `link.click()` throws.  The code puts the
`revokeObjectURL` call inside the try block after `link.click()`, so on the
path where the click throws the catch clause runs (log, rethrow) and the
URL is never revoked: at the failing input (fetch succeeds, click throws)
the object URL is created but not revoked, and the error is rethrown as
`Failed to download file`. -/
theorem downloadFile_click_throws_skips_revoke :
    (fileService_downloadFile { fetch := .ok, clickThrows := true }).urlCreated = true
    ∧ (fileService_downloadFile { fetch := .ok, clickThrows := true }).urlRevoked = false
    ∧ (fileService_downloadFile { fetch := .ok, clickThrows := true }).result
        = .error (.wrapped "Failed to download file") := by
  decide

/-- C2: with min-size 500 and max-size 100 (KB) the filter panel emits
nothing and shows the min-greater-than-max size error; with min-size 100
and max-size 500 it emits a filter object with `minSize = 102400` and
`maxSize = 512000` bytes. -/
theorem emitFilterChange_size_range_cases :
    (emitFilterChange { minSize := "500", maxSize := "100" }).2 = none
    ∧ (emitFilterChange { minSize := "500", maxSize := "100" }).1.sizeError
        = "Minimum size cannot be greater than maximum size"
    ∧ (emitFilterChange { minSize := "100", maxSize := "500" }).2
        = some { minSize := some (JsNum.ofNat 102400),
                 maxSize := some (JsNum.ofNat 512000) } := by
  decide

/-- C4 counterexample: the byte-size formatting function used by the file
listing does not map 1024 to `"1.00 KB"` — its `parseFloat` round-trip
strips the trailing zeros, producing `"1 KB"`. -/
theorem FileList_formatBytes_1024_not_padded :
    FileList_formatBytes 1024 ≠ "1.00 KB" ∧ FileList_formatBytes 1024 = "1 KB" := by
  decide

/-- C4 amended: the utils copy of `formatBytes` maps `0 ↦ "0 Bytes"`,
`1024 ↦ "1.00 KB"` and `1048576 ↦ "1.00 MB"`; the `FileList` copy agrees on
`0` but strips trailing fractional zeros, mapping `1024 ↦ "1 KB"` and
`1048576 ↦ "1 MB"`. -/
theorem formatBytes_values :
    formatBytes 0 = "0 Bytes"
    ∧ formatBytes 1024 = "1.00 KB"
    ∧ formatBytes 1048576 = "1.00 MB"
    ∧ FileList_formatBytes 0 = "0 Bytes"
    ∧ FileList_formatBytes 1024 = "1 KB"
    ∧ FileList_formatBytes 1048576 = "1 MB" := by
  decide

/-- C5: whenever the submit handler runs with no selected file, no upload
request is issued and the local error is set to "Please select a file",
whatever the mutation outcome would have been. -/
theorem handleUpload_no_selection (s : FUState) (outcome : UploadOutcome)
    (h : s.selectedFile = none) :
    (handleUpload s outcome).uploadCalled = false
    ∧ (handleUpload s outcome).state.error = some "Please select a file" := by
  simp [handleUpload, h]

/-- C5 witness: at the empty widget state the submit handler issues no
request and sets the message. -/
theorem handleUpload_no_selection_witness :
    (handleUpload { selectedFile := none, error := none, fileInputValue := "" }
        UploadOutcome.success).uploadCalled = false
    ∧ (handleUpload { selectedFile := none, error := none, fileInputValue := "" }
        UploadOutcome.success).state.error = some "Please select a file" :=
  handleUpload_no_selection
    { selectedFile := none, error := none, fileInputValue := "" }
    UploadOutcome.success rfl

/-- C7: a failed upload sets the local error message and leaves the
selected file unchanged. -/
theorem handleUpload_failure_keeps_selection (s : FUState) (name : String)
    (h : s.selectedFile = some name) :
    (handleUpload s .failure).state.error
      = some "Failed to upload file. Please try again."
    ∧ (handleUpload s .failure).state.selectedFile = s.selectedFile := by
  simp [handleUpload, h]

/-- C7 witness: with `a.txt` selected, a failed upload sets the message and
keeps `a.txt` selected. -/
theorem handleUpload_failure_keeps_selection_witness :
    (handleUpload { selectedFile := some "a.txt", error := none, fileInputValue := "a.txt" }
        UploadOutcome.failure).state.error
      = some "Failed to upload file. Please try again."
    ∧ (handleUpload { selectedFile := some "a.txt", error := none, fileInputValue := "a.txt" }
        UploadOutcome.failure).state.selectedFile
      = { selectedFile := some "a.txt", error := none,
          fileInputValue := "a.txt" : FUState }.selectedFile :=
  handleUpload_failure_keeps_selection
    { selectedFile := some "a.txt", error := none, fileInputValue := "a.txt" }
    "a.txt" rfl

/-- C3 counterexample: after a successful upload the file listing is not
refreshed exactly once — the `['files']` invalidation refetches the active
listing query and the `refreshKey` bump additionally remounts `FileList`,
whose query fetches again on mount, so two listing refreshes are
triggered. -/
theorem upload_success_double_listing_refresh :
    listingRefreshTriggers (uploadOnSuccess {}).2 = 2
    ∧ listingRefreshTriggers (uploadOnSuccess {}).2 ≠ 1 := by
  decide

/-- C3 amended: after every successful upload the file input's value is
cleared, the selection state is reset to `none`, and exactly one refresh of
the storage statistics is triggered, but the file listing refresh is
triggered twice (one cache invalidation plus one mount-time fetch of the
remounted listing). -/
theorem upload_success_effects (s : AppState) :
    (uploadOnSuccess s).1.fileInputValue = ""
    ∧ (uploadOnSuccess s).1.selectedFile = none
    ∧ statsRefreshTriggers (uploadOnSuccess s).2 = 1
    ∧ listingRefreshTriggers (uploadOnSuccess s).2 = 2
    ∧ (uploadOnSuccess s).1.refreshKey = s.refreshKey + 1
    ∧ (uploadOnSuccess s).1.resetKey = s.resetKey + 1 := by
  exact ⟨rfl, rfl, rfl, rfl, rfl, rfl⟩

/-- C10: on failure `deleteFile` rethrows the original caught error object
unchanged, while `uploadFile`, `searchFiles` and `getStorageStats` throw a
newly constructed `Error` wrapping the extracted message (and `downloadFile`
throws a fixed wrapped message); `deleteFile` is the only operation whose
failure surfaces the raw error. -/
theorem service_error_propagation :
    (∀ e, fileService_deleteFile (.err e) = .error (.raw e))
    ∧ (∀ e, fileService_uploadFile (.err e) = .error (.wrapped (getErrorMessage e)))
    ∧ (∀ e, fileService_searchFiles (.err e) = .error (.wrapped (getErrorMessage e)))
    ∧ (∀ e, fileService_getStorageStats (.err e) = .error (.wrapped (getErrorMessage e)))
    ∧ (∀ e, (fileService_downloadFile { fetch := .err e, clickThrows := false }).result
        = .error (.wrapped "Failed to download file"))
    ∧ (∀ op e e₀, opFailureThrown op e = some (.raw e₀) → op = .delete) := by
  refine ⟨fun e => rfl, fun e => rfl, fun e => rfl, fun e => rfl, fun e => rfl, ?_⟩
  intro op e e₀ h
  cases op <;> simp [opFailureThrown, fileService_uploadFile, fileService_searchFiles,
    fileService_deleteFile, fileService_getStorageStats, fileService_downloadFile] at h ⊢

/-- C10 witness: `deleteFile` rethrows a concrete raw error, and the
uniqueness direction holds at the concrete delete failure. -/
theorem service_error_propagation_witness :
    fileService_deleteFile (.err .other) = .error (.raw .other)
    ∧ ServiceOp.delete = ServiceOp.delete :=
  ⟨service_error_propagation.1 .other,
   service_error_propagation.2.2.2.2.2 .delete .other .other rfl⟩

/-- C6: `getErrorMessage` returns the body's `detail` field when present
(nonempty), else the body's `error` field when present (nonempty), else the
transport-level error's message text (for axios errors and plain `Error`
values alike), and otherwise the fallback string — in that precedence
order. -/
theorem getErrorMessage_precedence :
    (∀ d msg t, d.detail = some t → t ≠ "" →
      getErrorMessage (.axios (some d) msg) = t)
    ∧ (∀ d msg t, (d.detail = none ∨ d.detail = some "") →
        d.error = some t → t ≠ "" →
        getErrorMessage (.axios (some d) msg) = t)
    ∧ (∀ d msg, (d.detail = none ∨ d.detail = some "") →
        (d.error = none ∨ d.error = some "") →
        getErrorMessage (.axios (some d) msg) = msg)
    ∧ (∀ msg, getErrorMessage (.axios none msg) = msg)
    ∧ (∀ msg, getErrorMessage (.jsError msg) = msg)
    ∧ getErrorMessage .other = "An unexpected error occurred" := by
  refine ⟨?_, ?_, ?_, fun msg => rfl, fun msg => rfl, rfl⟩
  · intro d msg t h hne
    simp [getErrorMessage, truthy, h, hne]
  · intro d msg t hd h hne
    rcases hd with hd | hd <;> simp [getErrorMessage, truthy, h, hd, hne]
  · intro d msg hd he
    rcases hd with hd | hd <;> rcases he with he | he <;>
      simp [getErrorMessage, truthy, hd, he]

/-- C6 witness: concrete error values hitting each precedence level. -/
theorem getErrorMessage_precedence_witness :
    getErrorMessage (.axios (some { detail := some "D", error := some "E" }) "M") = "D"
    ∧ getErrorMessage (.axios (some { detail := none, error := some "E" }) "M") = "E"
    ∧ getErrorMessage (.axios (some { detail := none, error := none }) "M") = "M" :=
  ⟨getErrorMessage_precedence.1 { detail := some "D", error := some "E" } "M" "D"
      rfl (by decide),
   getErrorMessage_precedence.2.1 { detail := none, error := some "E" } "M" "E"
      (Or.inl rfl) rfl (by decide),
   getErrorMessage_precedence.2.2.1 { detail := none, error := none } "M"
      (Or.inl rfl) (Or.inl rfl)⟩

/-- Once the debounce component is unmounted with no pending timer, no later
event produces an emission. -/
theorem debRun_no_emit_of_unmounted (es : List DebEvent) :
    ∀ s : DebState, s.mounted = false → s.pending = none →
      DebAction.emit ∉ debRun s es := by
  induction es with
  | nil => intro s hm hp; simp [debRun]
  | cons e es ih =>
    intro s hm hp
    cases e with
    | change =>
      simp only [debRun, debStep, hm]
      simpa using ih s hm hp
    | fire id =>
      simp only [debRun, debStep, hp]
      simpa using ih s hm hp
    | unmount =>
      simp only [debRun, debStep, hp]
      simpa using ih { s with mounted := false, pending := none } rfl rfl

/-- Executing an appended event list is executing the pieces in order. -/
theorem debExec_append (as bs : List DebEvent) :
    ∀ s : DebState, debExec s (as ++ bs) = debExec (debExec s as) bs := by
  induction as with
  | nil => intro s; rfl
  | cons a as ih => intro s; simp only [List.cons_append, debExec]; exact ih _

/-- C8: while mounted, every filter-field change cancels the pending
debounced emission (when one is scheduled) and schedules a fresh one; the
unmount cleanup always clears the pending timer; and after the unmount
event no emission ever fires, whatever happened before and whatever timer
events arrive afterwards. -/
theorem debounce_behavior :
    (∀ (s : DebState) (id : ℕ), s.mounted = true → s.pending = some id →
      debStep s .change
        = ({ s with pending := some s.nextId, nextId := s.nextId + 1 },
            [DebAction.cancel id, DebAction.schedule s.nextId]))
    ∧ (∀ s : DebState,
        (debStep s .unmount).1.pending = none
        ∧ (debStep s .unmount).1.mounted = false)
    ∧ (∀ (s : DebState) (pre post : List DebEvent),
        DebAction.emit ∉ debRun (debExec s (pre ++ [DebEvent.unmount])) post) := by
  refine ⟨?_, fun s => ⟨rfl, rfl⟩, ?_⟩
  · intro s id hm hp
    simp [debStep, hm, hp]
  · intro s pre post
    rw [debExec_append]
    exact debRun_no_emit_of_unmounted post _ rfl rfl

/-- C8 witness: at a concrete mounted state with pending timer 5 and next
id 7, a field change cancels timer 5 and schedules timer 7; and a concrete
post-unmount trace with a stray timer firing produces no emission. -/
theorem debounce_behavior_witness :
    debStep { mounted := true, pending := some 5, nextId := 7 } .change
      = ({ mounted := true, pending := some 7, nextId := 8 },
          [DebAction.cancel 5, DebAction.schedule 7])
    ∧ DebAction.emit ∉
        debRun (debExec { mounted := true, pending := some 3, nextId := 4 }
          ([DebEvent.change] ++ [DebEvent.unmount])) [DebEvent.fire 4] :=
  ⟨debounce_behavior.1 { mounted := true, pending := some 5, nextId := 7 } 5 rfl rfl,
   debounce_behavior.2.2 { mounted := true, pending := some 3, nextId := 4 }
     [DebEvent.change] [DebEvent.fire 4]⟩

/-- A date parsed from a date-input string sits at the start of its day:
its serialized time component is `00:00:00.000`. -/
theorem parseDate_timePart (str : String) (d : JsDate)
    (h : parseDate str = some d) : d.timePart = "00:00:00.000" := by
  unfold parseDate at h
  split at h
  · split at h
    · split at h
      · injection h with h
        subst h
        simp only [JsDate.timePart]
        decide
      · exact Option.noConfusion h
    · exact Option.noConfusion h
  · exact Option.noConfusion h

/-- If the end-date step emits, either the end-date field was empty and the
filter object is unchanged, or the field parsed and the emitted object
carries the parsed day extended to 23:59:59.999, serialized. -/
theorem emitEndDate_emits (s : SFState) (f0 f : FilterCriteria)
    (h : (emitEndDate s f0).2 = some f) :
    (s.endDate = "" ∧ f = f0)
    ∨ ∃ d, parseDate s.endDate = some d
        ∧ f = { f0 with endDate := some ((d.setHours 23 59 59 999).toISOString) } := by
  unfold emitEndDate at h
  split at h
  · exact Or.inl ⟨by assumption, (Option.some.inj h).symm⟩
  · split at h
    · exact Option.noConfusion h
    · rename_i d hp
      exact Or.inr ⟨d, hp, (Option.some.inj h).symm⟩

/-- If the start-date step emits, the emission went through the end-date
step on a filter object whose start date is either unchanged or the parsed
start day serialized as-is. -/
theorem emitStartDate_emits (s : SFState) (f0 f : FilterCriteria)
    (h : (emitStartDate s f0).2 = some f) :
    ∃ f1, (emitEndDate s f1).2 = some f
      ∧ ((s.startDate = "" ∧ f1 = f0)
        ∨ ∃ d, parseDate s.startDate = some d
            ∧ f1 = { f0 with startDate := some d.toISOString }) := by
  unfold emitStartDate at h
  split at h
  · exact ⟨f0, h, Or.inl ⟨by assumption, rfl⟩⟩
  · split at h
    · exact Option.noConfusion h
    · rename_i d hp
      exact ⟨_, h, Or.inr ⟨d, hp, rfl⟩⟩

/-- C9: whenever the filter panel emits a filter object, an emitted end
date is the selected calendar day extended to its last instant
(23:59:59.999) serialized as ISO-8601 — not the start of that day, whose
time component a parsed date carries — and an emitted start date is the
start of its day. -/
theorem emitFilterChange_date_bounds (s : SFState) (f : FilterCriteria)
    (h : (emitFilterChange s).2 = some f) :
    (∀ e, f.endDate = some e → ∃ d, parseDate s.endDate = some d
        ∧ e = (d.setHours 23 59 59 999).toISOString
        ∧ (d.setHours 23 59 59 999).timePart = "23:59:59.999")
    ∧ (∀ e, f.startDate = some e → ∃ d, parseDate s.startDate = some d
        ∧ e = d.toISOString
        ∧ d.timePart = "00:00:00.000") := by
  unfold emitFilterChange at h
  split at h
  · exact Option.noConfusion h
  · split at h
    · exact Option.noConfusion h
    · obtain ⟨f1, hEnd, hStart⟩ := emitStartDate_emits _ _ _ h
      have hend1 : f1.endDate = none := by
        rcases hStart with ⟨_, hf1⟩ | ⟨d, hp, hf1⟩ <;> subst hf1 <;> rfl
      have hstart1 :
          f1.startDate = none
          ∨ ∃ d, parseDate s.startDate = some d
              ∧ f1.startDate = some d.toISOString := by
        rcases hStart with ⟨_, hf1⟩ | ⟨d, hp, hf1⟩
        · subst hf1; exact Or.inl rfl
        · subst hf1; exact Or.inr ⟨d, hp, rfl⟩
      constructor
      · intro e he
        rcases emitEndDate_emits _ _ _ hEnd with ⟨_, hf⟩ | ⟨d, hp, hf⟩
        · subst hf
          rw [hend1] at he
          exact Option.noConfusion he
        · subst hf
          refine ⟨d, hp, (Option.some.inj he).symm, ?_⟩
          simp only [JsDate.timePart, JsDate.setHours]
          decide
      · intro e he
        have hfs : f.startDate = f1.startDate := by
          rcases emitEndDate_emits _ _ _ hEnd with ⟨_, hf⟩ | ⟨d, hp, hf⟩ <;>
            subst hf <;> rfl
        rw [hfs] at he
        rcases hstart1 with hnone | ⟨d, hp, hsd⟩
        · rw [hnone] at he
          exact Option.noConfusion he
        · rw [hsd] at he
          exact ⟨d, hp, (Option.some.inj he).symm, parseDate_timePart _ _ hp⟩

/-- C9 witness: with start date 2024-03-01 and end date 2024-03-05 the
panel emits, and the emitted end date is the last instant of 2024-03-05. -/
theorem emitFilterChange_date_bounds_witness :
    ∃ d, parseDate ({ startDate := "2024-03-01", endDate := "2024-03-05" : SFState }).endDate
        = some d
      ∧ "2024-03-05T23:59:59.999Z" = (d.setHours 23 59 59 999).toISOString
      ∧ (d.setHours 23 59 59 999).timePart = "23:59:59.999" :=
  (emitFilterChange_date_bounds
    { startDate := "2024-03-01", endDate := "2024-03-05" }
    { startDate := some "2024-03-01T00:00:00.000Z",
      endDate := some "2024-03-05T23:59:59.999Z" }
    (by decide)).1 "2024-03-05T23:59:59.999Z" rfl
